import Mathlib

/-!
Verification of the Prompt Maker repository: the prompt-studio reducer and
template merge (`src/components/prompt-studio/PromptStudio.tsx`), the
refinement proxy route (`src/app/api/refine/route.ts`), and — modelled from
the specification where the implementation file `src/lib/prompt-utils.ts` is
not part of the sources — the prompt compiler and quality evaluator.
Strings are Lean `String`s (lists of characters); JavaScript arrays are Lean
lists; `undefined`-able values are `Option`s.
-/

namespace PromptMaker

/-- `PromptVariable`: `{ id, name, description, «example»? }` (spec §3; used
throughout `PromptStudio.tsx`). The optional `«example»` is an `Option`. -/
structure PromptVariable where
  id : String
  name : String
  description : String
  «example» : Option String
  deriving Repr, DecidableEq

/-- `WorkflowStage`: `{ id, title, instruction, expectedOutput }`. -/
structure WorkflowStage where
  id : String
  title : String
  instruction : String
  expectedOutput : String
  deriving Repr, DecidableEq

/-- The `PromptState` root entity: thirteen free-text fields (order and names
from the `textSections` table of `PromptStudio.tsx`), four tag sets
(`chipGroups`), the variable sequence and the workflow sequence. -/
structure PromptState where
  projectTitle : String
  coreObjective : String
  targetAudience : String
  backgroundContext : String
  requiredInputs : String
  desiredOutput : String
  successCriteria : String
  guardrails : String
  creativeAngles : String
  referenceMaterial : String
  evaluationStrategy : String
  modelPreferences : String
  callToAction : String
  toneTraits : List String
  styleGuidelines : List String
  constraints : List String
  keywords : List String
  «variables» : List PromptVariable
  workflow : List WorkflowStage
  deriving Repr, DecidableEq

/-- Keys of the thirteen string-valued fields of `PromptState`.  The
`update` action's TypeScript type is `keyof PromptState` with a string
value; every dispatch site supplies one of these text keys, so the model
types the key accordingly. -/
inductive TextKey where
  | projectTitle | coreObjective | targetAudience | backgroundContext
  | requiredInputs | desiredOutput | successCriteria | guardrails
  | creativeAngles | referenceMaterial | evaluationStrategy
  | modelPreferences | callToAction
  deriving Repr, DecidableEq

/-- `PromptArrayKey`: the four tag-set fields. -/
inductive ArrayKey where
  | toneTraits | styleGuidelines | constraints | keywords
  deriving Repr, DecidableEq

def getText (s : PromptState) : TextKey → String
  | .projectTitle => s.projectTitle
  | .coreObjective => s.coreObjective
  | .targetAudience => s.targetAudience
  | .backgroundContext => s.backgroundContext
  | .requiredInputs => s.requiredInputs
  | .desiredOutput => s.desiredOutput
  | .successCriteria => s.successCriteria
  | .guardrails => s.guardrails
  | .creativeAngles => s.creativeAngles
  | .referenceMaterial => s.referenceMaterial
  | .evaluationStrategy => s.evaluationStrategy
  | .modelPreferences => s.modelPreferences
  | .callToAction => s.callToAction

/-- `{ ...state, [key]: value }` for a text key. -/
def setText (s : PromptState) (k : TextKey) (v : String) : PromptState :=
  match k with
  | .projectTitle => { s with projectTitle := v }
  | .coreObjective => { s with coreObjective := v }
  | .targetAudience => { s with targetAudience := v }
  | .backgroundContext => { s with backgroundContext := v }
  | .requiredInputs => { s with requiredInputs := v }
  | .desiredOutput => { s with desiredOutput := v }
  | .successCriteria => { s with successCriteria := v }
  | .guardrails => { s with guardrails := v }
  | .creativeAngles => { s with creativeAngles := v }
  | .referenceMaterial => { s with referenceMaterial := v }
  | .evaluationStrategy => { s with evaluationStrategy := v }
  | .modelPreferences => { s with modelPreferences := v }
  | .callToAction => { s with callToAction := v }

def getArray (s : PromptState) : ArrayKey → List String
  | .toneTraits => s.toneTraits
  | .styleGuidelines => s.styleGuidelines
  | .constraints => s.constraints
  | .keywords => s.keywords

/-- `{ ...state, [key]: value }` for a tag-set key. -/
def setArray (s : PromptState) (k : ArrayKey) (v : List String) : PromptState :=
  match k with
  | .toneTraits => { s with toneTraits := v }
  | .styleGuidelines => { s with styleGuidelines := v }
  | .constraints => { s with constraints := v }
  | .keywords => { s with keywords := v }

/-- Field selectors of `PromptVariable` targeted by `updateVariable`
(TypeScript `keyof PromptVariable`). -/
inductive VarField where
  | id | name | description | «example»
  deriving Repr, DecidableEq

/-- `{ ...variable, [field]: value }`.  Writing the `«example»` field stores the
string (the JS object then holds a present string, i.e. `some value`). -/
def setVarField (v : PromptVariable) : VarField → String → PromptVariable
  | .id, x => { v with id := x }
  | .name, x => { v with name := x }
  | .description, x => { v with description := x }
  | .«example», x => { v with «example» := some x }

/-- Field selectors of `WorkflowStage` targeted by `updateWorkflow`. -/
inductive WfField where
  | id | title | instruction | expectedOutput
  deriving Repr, DecidableEq

def setWfField (st : WorkflowStage) : WfField → String → WorkflowStage
  | .id, x => { st with id := x }
  | .title, x => { st with title := x }
  | .instruction, x => { st with instruction := x }
  | .expectedOutput, x => { st with expectedOutput := x }

/-- Modelled from the spec: `createBlankVariable()` (in the absent
`src/lib/prompt-utils.ts`) returns a variable with a freshly generated unique
id, empty name and description and no «example» (spec §4.1).  The generated id
is passed in explicitly, keeping the model pure. -/
def createBlankVariable (freshId : String) : PromptVariable :=
  { id := freshId, name := "", description := "", «example» := none }

/-- Modelled from the spec: `createBlankWorkflowStage()` returns a stage with
a freshly generated unique id and empty title/instruction/expectedOutput. -/
def createBlankWorkflowStage (freshId : String) : WorkflowStage :=
  { id := freshId, title := "", instruction := "", expectedOutput := "" }

/-- Modelled from the spec: `createDefaultPromptState()` returns a snapshot
with every free-text field empty, every tag set empty, one blank variable and
one blank workflow stage (spec §4.1); the two generated ids are parameters. -/
def createDefaultPromptState (varId stageId : String) : PromptState :=
  { projectTitle := "", coreObjective := "", targetAudience := ""
    backgroundContext := "", requiredInputs := "", desiredOutput := ""
    successCriteria := "", guardrails := "", creativeAngles := ""
    referenceMaterial := "", evaluationStrategy := "", modelPreferences := ""
    callToAction := ""
    toneTraits := [], styleGuidelines := [], constraints := [], keywords := []
    «variables» := [createBlankVariable varId]
    workflow := [createBlankWorkflowStage stageId] }

/-- The `PromptAction` tagged union of `PromptStudio.tsx`.  `addVariable` and
`addWorkflow` call the impure id generator in the source; the model carries
the generated id as payload. -/
inductive PromptAction where
  | update (key : TextKey) (value : String)
  | addChip (key : ArrayKey) (value : String)
  | removeChip (key : ArrayKey) (value : String)
  | setChips (key : ArrayKey) (value : List String)
  | hydrate (payload : PromptState)
  | addVariable (freshId : String)
  | removeVariable (id : String)
  | updateVariable (id : String) (field : VarField) (value : String)
  | addWorkflow (freshId : String)
  | removeWorkflow (id : String)
  | updateWorkflow (id : String) (field : WfField) (value : String)
  deriving Repr, DecidableEq

/-- The reducer of `PromptStudio.tsx` (lines 46–99), case by case.
`existing.includes(v)` is membership, `[...existing, v]` appends,
`filter((item) => item !== v)` filters, spreads copy (identity on values). -/
def reducer (state : PromptState) (action : PromptAction) : PromptState :=
  match action with
  | .update key value => setText state key value
  | .addChip key value =>
      let existing := getArray state key
      if value ∈ existing then state
      else setArray state key (existing ++ [value])
  | .removeChip key value =>
      setArray state key ((getArray state key).filter (fun item => item ≠ value))
  | .setChips key value => setArray state key value
  | .hydrate payload => payload
  | .addVariable freshId =>
      { state with «variables» := state.«variables» ++ [createBlankVariable freshId] }
  | .removeVariable id =>
      { state with «variables» := state.«variables».filter (fun v => v.id ≠ id) }
  | .updateVariable id field value =>
      { state with «variables» :=
          state.«variables».map (fun v => if v.id = id then setVarField v field value else v) }
  | .addWorkflow freshId =>
      { state with workflow := state.workflow ++ [createBlankWorkflowStage freshId] }
  | .removeWorkflow id =>
      { state with workflow := state.workflow.filter (fun st => st.id ≠ id) }
  | .updateWorkflow id field value =>
      { state with workflow :=
          state.workflow.map (fun st => if st.id = id then setWfField st field value else st) }

/-- The tag-set invariant of spec §3: each of the four tag sets is a
sequence of unique strings. -/
def NodupState (s : PromptState) : Prop :=
  s.toneTraits.Nodup ∧ s.styleGuidelines.Nodup ∧
  s.constraints.Nodup ∧ s.keywords.Nodup

instance (s : PromptState) : Decidable (NodupState s) := by
  unfold NodupState; infer_instance

/-! ### Variable-name normalization

`VariablesEditor` dispatches every name edit with
`value.replace(/\s+/g, "_").toUpperCase()` (`PromptStudio.tsx` line 466):
each maximal whitespace run becomes one underscore, then the string is
uppercased.  The JS regex class `\s` is modelled by the ASCII whitespace
characters; `toUpperCase` by `Char.toUpper` (ASCII letters). -/

/-- The whitespace characters matched by the regex class `\s` (ASCII part). -/
def isJsWs (c : Char) : Bool :=
  c = ' ' || c = '\t' || c = '\n' || c = '\r' || c = '\x0b' || c = '\x0c'

/-- `replace(/\s+/g, "_")` on a character list: the boolean records whether
the previous character was inside a whitespace run (a run emits a single
underscore at its first character). -/
def collapseWsAux : Bool → List Char → List Char
  | _, [] => []
  | prevWs, c :: cs =>
      if isJsWs c then
        if prevWs then collapseWsAux true cs else '_' :: collapseWsAux true cs
      else c :: collapseWsAux false cs

/-- `value.replace(/\s+/g, "_").toUpperCase()`: the normal form imposed on a
variable name by the variables editor before dispatching `updateVariable`. -/
def normalizeVariableName (s : String) : String :=
  String.mk ((collapseWsAux false s.data).map Char.toUpper)

/-- A name is in uppercase-with-underscores normal form when normalizing it
again changes nothing. -/
def IsNormalizedName (s : String) : Prop :=
  normalizeVariableName s = s

instance (s : String) : Decidable (IsNormalizedName s) := by
  unfold IsNormalizedName; infer_instance

/-! ### JS `trim` and blankness

`String.trim` of the Lean library is byte-position based and does not reduce
in the kernel, so the model implements JS `String.prototype.trim` directly
on the character list. -/

def jsTrim (s : String) : String :=
  String.mk (((s.data.dropWhile isJsWs).reverse.dropWhile isJsWs).reverse)

/-- A string is blank when it trims to the empty string (`!field.trim()` in
the source; `"non-blank after trimming whitespace"` in spec §4.2). -/
def blank (s : String) : Bool :=
  jsTrim s = ""

/-! ### Prompt Compiler

`compilePrompt` lives in the absent `src/lib/prompt-utils.ts`; the model
below follows spec §4.2 step by step.  The statically-ordered field list and
the human-readable titles are taken from the `textSections` and `chipGroups`
tables of `PromptStudio.tsx`. -/

/-- The fixed order and titles of the free-text sections (`textSections`). -/
def textSectionTitles : List (TextKey × String) :=
  [(.projectTitle, "Project Codename"),
   (.coreObjective, "Core Objective"),
   (.targetAudience, "Target Audience / Persona"),
   (.backgroundContext, "Background Context"),
   (.requiredInputs, "Required Inputs"),
   (.desiredOutput, "Desired Deliverable"),
   (.successCriteria, "Success Criteria"),
   (.guardrails, "Guardrails & Refusal Policy"),
   (.creativeAngles, "Creative Directions"),
   (.referenceMaterial, "Reference Material"),
   (.evaluationStrategy, "Self-Evaluation Strategy"),
   (.modelPreferences, "Model / Tooling Preferences"),
   (.callToAction, "Respond With")]

/-- The fixed order and titles of the four tag groups (`chipGroups`). -/
def chipGroupTitles : List (ArrayKey × String) :=
  [(.toneTraits, "Tone DNA"),
   (.styleGuidelines, "Style Rules"),
   (.constraints, "Operational Constraints"),
   (.keywords, "Linguistic Anchors")]

/-- A workflow stage is entirely blank when title, instruction and expected
output are all blank (spec §4.2 step 3). -/
def stageEntirelyBlank (st : WorkflowStage) : Bool :=
  blank st.title && blank st.instruction && blank st.expectedOutput

/-- Modelled from the spec (§4.2 step 3): the numbered workflow entries the
compiler emits — entirely blank stages are skipped, the surviving stages keep
array order and are numbered 1-based contiguously over the emitted entries
only. -/
def numberedSteps (stages : List WorkflowStage) : List (Nat × WorkflowStage) :=
  ((stages.filter (fun st => !stageEntirelyBlank st)).enum).map
    (fun p => (p.1 + 1, p.2))

/-- Modelled from the spec: rendering of one emitted workflow step. -/
def renderStep (p : Nat × WorkflowStage) : String :=
  toString p.1 ++ ". " ++ p.2.title ++ " — " ++ p.2.instruction ++
    " (Expected: " ++ p.2.expectedOutput ++ ")"

/-- Modelled from the spec (§4.2 step 4): variables with blank names are
skipped; each kept variable renders as `NAME — description (example: …)`,
the example clause omitted when absent. -/
def renderVariable (v : PromptVariable) : String :=
  v.name ++ " — " ++ v.description ++
    (match v.«example» with
     | some e => " (example: " ++ e ++ ")"
     | none => "")

/-- Modelled from the spec (§4.2): `compilePrompt(state) -> text`.  Non-blank
free-text fields emit heading plus verbatim content; non-empty tag sets emit
heading plus a comma-delimited list; the workflow section appears when some
stage has a non-blank title or instruction; the variables section when some
variable has a non-blank name; sections are joined by one blank line in the
fixed order text → tags → workflow → variables. -/
def compilePrompt (s : PromptState) : String :=
  let textBlocks := textSectionTitles.filterMap
    (fun p =>
      let content := getText s p.1
      if blank content then none else some (p.2 ++ "\n" ++ content))
  let chipBlocks := chipGroupTitles.filterMap
    (fun p =>
      let items := getArray s p.1
      if items.isEmpty then none
      else some (p.2 ++ "\n" ++ String.intercalate ", " items))
  let workflowBlocks :=
    if s.workflow.any (fun st => !blank st.title || !blank st.instruction) then
      ["Workflow\n" ++ String.intercalate "\n" ((numberedSteps s.workflow).map renderStep)]
    else []
  let variableBlocks :=
    if s.«variables».any (fun v => !blank v.name) then
      ["Variables\n" ++ String.intercalate "\n"
        (((s.«variables».filter (fun v => !blank v.name)).map renderVariable))]
    else []
  String.intercalate "\n\n" (textBlocks ++ chipBlocks ++ workflowBlocks ++ variableBlocks)

/-! ### Quality Evaluator

Modelled from spec §4.3: a fixed set of weighted dimensions scored by
presence/length heuristics, an aggregate bounded total, missing sections in
declaration order, impact tips from the lowest-scoring dimensions and quick
wins from already-adequate ones.  Spec §9 leaves the exact weights and
thresholds open; the model fixes concrete ones. -/

/-- The six rubric dimensions, in declaration order (spec §4.3). -/
inductive Dimension where
  | clarity | audience | guardrailsCoverage | outputSpec | selfEval | structural
  deriving Repr, DecidableEq

def dimensionOrder : List Dimension :=
  [.clarity, .audience, .guardrailsCoverage, .outputSpec, .selfEval, .structural]

def dimTitle : Dimension → String
  | .clarity => "Clarity of Objective"
  | .audience => "Audience Definition"
  | .guardrailsCoverage => "Guardrails Coverage"
  | .outputSpec => "Output Specification"
  | .selfEval => "Self-Evaluation Rigor"
  | .structural => "Structural Completeness"

def dimMax : Dimension → Nat
  | .clarity => 25
  | .audience => 15
  | .guardrailsCoverage => 20
  | .outputSpec => 20
  | .selfEval => 10
  | .structural => 10

/-- Presence/length heuristic for one text field: zero when blank, half the
weight when short, the full weight from the length threshold on. -/
def lengthScore (s : String) (threshold cap : Nat) : Nat :=
  if blank s then 0
  else if threshold ≤ s.length then cap else cap / 2

/-- Modelled from the spec: the per-dimension heuristics of §4.3, over the
fields named by the rubric (non-blank presence, length thresholds, presence
of list items). -/
def dimScore (d : Dimension) (s : PromptState) : Nat :=
  match d with
  | .clarity => lengthScore s.coreObjective 120 25
  | .audience => lengthScore s.targetAudience 80 15
  | .guardrailsCoverage =>
      min 20 (lengthScore s.guardrails 80 14 + (if s.constraints.isEmpty then 0 else 6))
  | .outputSpec =>
      min 20 (lengthScore s.desiredOutput 80 14 + (if blank s.callToAction then 0 else 6))
  | .selfEval =>
      min 10 (lengthScore s.evaluationStrategy 60 7 + (if blank s.successCriteria then 0 else 3))
  | .structural =>
      (if s.workflow.any (fun st => !blank st.title || !blank st.instruction) then 4 else 0) +
      (if s.«variables».any (fun v => !blank v.name) then 3 else 0) +
      (if s.toneTraits.isEmpty && s.styleGuidelines.isEmpty &&
          s.constraints.isEmpty && s.keywords.isEmpty then 0 else 3)

def dimTip : Dimension → String
  | .clarity => "Sharpen the core objective with stakes and success definition."
  | .audience => "Describe the audience persona, expertise, and motivations."
  | .guardrailsCoverage => "Add explicit guardrails and refusal conditions."
  | .outputSpec => "Specify the deliverable structure and response format."
  | .selfEval => "Give the model a self-evaluation rubric before it finalizes."
  | .structural => "Break the task into workflow stages and reusable variables."

def dimQuickWin : Dimension → String
  | .clarity => "Expand the objective with one concrete example."
  | .audience => "Add one sentence on the reader's expertise level."
  | .guardrailsCoverage => "List one more non-negotiable constraint."
  | .outputSpec => "State the desired length or format explicitly."
  | .selfEval => "Add an acceptance checklist item."
  | .structural => "Name the variables or add one workflow stage."

/-- Stable insertion of a dimension into a list ascending by score. -/
def insertByScore (s : PromptState) (d : Dimension) : List Dimension → List Dimension
  | [] => [d]
  | e :: es =>
      if dimScore d s < dimScore e s then d :: e :: es
      else e :: insertByScore s d es

/-- The dimensions sorted by ascending score (worst first), stably. -/
def sortedByScore (s : PromptState) : List Dimension :=
  dimensionOrder.foldr (insertByScore s) []

/-- The structured evaluation report of spec §4.3. -/
structure EvaluationReport where
  totalScore : Nat
  summary : String
  breakdown : List (String × Nat)
  missingSections : List String
  impactTips : List String
  quickWins : List String
  deriving Repr, DecidableEq

/-- Modelled from the spec (§4.3): `evaluate(state)`.  The total is the sum
of the per-dimension scores (bounded by the weights to 0..100); a dimension
is missing when its presence heuristic fails (score zero); impact tips come
from the lowest-scoring incomplete dimensions, worst first, capped at three;
quick wins from dimensions already above zero but below their max, capped at
two. -/
def evaluate (s : PromptState) : EvaluationReport :=
  let total := (dimensionOrder.map (fun d => dimScore d s)).sum
  { totalScore := total
    summary :=
      if total ≤ 30 then "Needs substantial structure before use."
      else if total ≤ 70 then "Solid start — tighten the weak dimensions."
      else "Strong prompt; polish the remaining gaps."
    breakdown := dimensionOrder.map (fun d => (dimTitle d, dimScore d s))
    missingSections :=
      (dimensionOrder.filter (fun d => dimScore d s = 0)).map dimTitle
    impactTips :=
      (((sortedByScore s).filter (fun d => dimScore d s < dimMax d)).take 3).map dimTip
    quickWins :=
      ((dimensionOrder.filter
        (fun d => 0 < dimScore d s && dimScore d s < dimMax d)).take 2).map dimQuickWin }

/-! ### Template merge

`handleLoadTemplate` (`PromptStudio.tsx` lines 541–562) merges a template's
`Partial<PromptState>` over a fresh default:
`{ ...base, ...template.sections, toneTraits: sections.toneTraits ?? base.toneTraits, … }`.
A partial field is an `Option`; the object spread makes a present field win
and an absent field fall back to `base`, and the six explicit `??` fallbacks
do the same for the list-typed fields. -/

/-- `Partial<PromptState>`: every field optional. -/
structure PartialPromptState where
  projectTitle : Option String := none
  coreObjective : Option String := none
  targetAudience : Option String := none
  backgroundContext : Option String := none
  requiredInputs : Option String := none
  desiredOutput : Option String := none
  successCriteria : Option String := none
  guardrails : Option String := none
  creativeAngles : Option String := none
  referenceMaterial : Option String := none
  evaluationStrategy : Option String := none
  modelPreferences : Option String := none
  callToAction : Option String := none
  toneTraits : Option (List String) := none
  styleGuidelines : Option (List String) := none
  constraints : Option (List String) := none
  keywords : Option (List String) := none
  «variables» : Option (List PromptVariable) := none
  workflow : Option (List WorkflowStage) := none
  deriving Repr, DecidableEq

def getPartialText (p : PartialPromptState) : TextKey → Option String
  | .projectTitle => p.projectTitle
  | .coreObjective => p.coreObjective
  | .targetAudience => p.targetAudience
  | .backgroundContext => p.backgroundContext
  | .requiredInputs => p.requiredInputs
  | .desiredOutput => p.desiredOutput
  | .successCriteria => p.successCriteria
  | .guardrails => p.guardrails
  | .creativeAngles => p.creativeAngles
  | .referenceMaterial => p.referenceMaterial
  | .evaluationStrategy => p.evaluationStrategy
  | .modelPreferences => p.modelPreferences
  | .callToAction => p.callToAction

def getPartialArray (p : PartialPromptState) : ArrayKey → Option (List String)
  | .toneTraits => p.toneTraits
  | .styleGuidelines => p.styleGuidelines
  | .constraints => p.constraints
  | .keywords => p.keywords

/-- The merged snapshot of `handleLoadTemplate` (lines 547–556). -/
def mergeTemplate (base : PromptState) (p : PartialPromptState) : PromptState :=
  { projectTitle := p.projectTitle.getD base.projectTitle
    coreObjective := p.coreObjective.getD base.coreObjective
    targetAudience := p.targetAudience.getD base.targetAudience
    backgroundContext := p.backgroundContext.getD base.backgroundContext
    requiredInputs := p.requiredInputs.getD base.requiredInputs
    desiredOutput := p.desiredOutput.getD base.desiredOutput
    successCriteria := p.successCriteria.getD base.successCriteria
    guardrails := p.guardrails.getD base.guardrails
    creativeAngles := p.creativeAngles.getD base.creativeAngles
    referenceMaterial := p.referenceMaterial.getD base.referenceMaterial
    evaluationStrategy := p.evaluationStrategy.getD base.evaluationStrategy
    modelPreferences := p.modelPreferences.getD base.modelPreferences
    callToAction := p.callToAction.getD base.callToAction
    toneTraits := p.toneTraits.getD base.toneTraits
    styleGuidelines := p.styleGuidelines.getD base.styleGuidelines
    constraints := p.constraints.getD base.constraints
    keywords := p.keywords.getD base.keywords
    «variables» := p.«variables».getD base.«variables»
    workflow := p.workflow.getD base.workflow }

/-! ### Refinement proxy route

`POST` of `src/app/api/refine/route.ts`.  The handler destructures the
payload with defaults, validates prompt, api key and provider, and only then
contacts the provider; the provider interaction is modelled as an explicit
outcome value.  JS falsiness of an optional string (`undefined` or `""`) is
`strFalsy`. -/

structure RefinePayload where
  prompt : Option String := none
  instructions : Option String := none
  provider : Option String := none
  model : Option String := none
  temperature : Option Rat := none
  apiKey : Option String := none
  deriving Repr, DecidableEq

/-- Outcome of the `fetch` to the provider endpoint: a 2xx response with the
extracted message content, a non-2xx response with status and optional error
message, or a thrown network error. -/
inductive ProviderOutcome where
  | ok (content : Option String)
  | httpError (status : Nat) (message : Option String)
  | networkFailure
  deriving Repr, DecidableEq

/-- The JSON response of the route: HTTP status plus the optional
`analysis`, `refinedPrompt` and `error` fields. -/
structure RefineResponse where
  status : Nat
  analysis : Option String := none
  refinedPrompt : Option String := none
  error : Option String := none
  deriving Repr, DecidableEq

/-- JS falsiness of an optional string: absent or empty. -/
def strFalsy (o : Option String) : Bool :=
  o.getD "" = ""

/-- `!prompt?.trim()`: absent, or blank after trimming. -/
def promptFalsy (o : Option String) : Bool :=
  blank (o.getD "")

/-- The own properties of the `PROVIDER_ENDPOINTS` record (route.ts
lines 3–6). -/
def PROVIDER_ENDPOINTS (provider : String) : Option String :=
  if provider = "openai" then some "https://api.openai.com/v1/chat/completions"
  else if provider = "openrouter" then some "https://openrouter.ai/api/v1/chat/completions"
  else none

/-- The record is a plain object literal, so the bracket lookup
`PROVIDER_ENDPOINTS[provider]` walks the prototype chain: these
`Object.prototype` member names also resolve, to truthy functions (or, for
`__proto__`, to the prototype object itself). -/
def objectPrototypeKeys : List String :=
  ["constructor", "hasOwnProperty", "isPrototypeOf", "propertyIsEnumerable",
   "toLocaleString", "toString", "valueOf", "__proto__",
   "__defineGetter__", "__defineSetter__", "__lookupGetter__", "__lookupSetter__"]

/-- The provider is one of the record's own keys, `openai`/`openrouter` —
only these make the looked-up endpoint an actual URL string. -/
def providerSupported (provider : String) : Bool :=
  (PROVIDER_ENDPOINTS provider).isSome

/-- Truthiness of the looked-up `endpoint` (`if (!endpoint)` at route.ts
line 61): truthy for an own key (a URL string) and also for an inherited
`Object.prototype` key (a truthy function or object). -/
def endpointTruthy (provider : String) : Bool :=
  providerSupported provider || provider ∈ objectPrototypeKeys

/-- Characters the code-block regex admits in the language tag
(`[a-zA-Z0-9_-]`). -/
def isLangChar (c : Char) : Bool :=
  c.isAlphanum || c = '_' || c = '-'

/-- The backtick character (0x60). -/
def backquote : Char := Char.ofNat 96

/-- The characters before the first triple-backquote fence, or `none` when
no fence follows (the lazy capture `([\s\S]*?)` must be closed by a
fence). -/
def splitAtFence : List Char → Option (List Char)
  | [] => none
  | c :: cs =>
      match cs with
      | c2 :: c3 :: _ =>
          if c = backquote && c2 = backquote && c3 = backquote then some []
          else (splitAtFence cs).map (c :: ·)
      | _ => (splitAtFence cs).map (c :: ·)

/-- Character-level model of the first regex of `extractRefinedPrompt`: at
each position try to match a triple-backquote fence, a run of language-tag
characters, a newline, then the lazily captured body up to the next fence;
on failure advance one position, as the regex engine does. -/
def findCodeBlock : List Char → Option (List Char)
  | [] => none
  | c :: cs =>
      match
        (match cs with
         | c2 :: c3 :: rest =>
             if c = backquote && c2 = backquote && c3 = backquote then
               match rest.dropWhile isLangChar with
               | '\n' :: body => splitAtFence body
               | _ => none
             else none
         | _ => none) with
      | some capture => some capture
      | none => findCodeBlock cs

/-- Case-insensitive prefix test (the regex carries the `i` flag). -/
def startsWithCI : List Char → List Char → Bool
  | [], _ => true
  | _ :: _, [] => false
  | p :: ps, c :: cs => p.toLower = c.toLower && startsWithCI ps cs

/-- Character-level model of the second regex: find
`(?:Final Prompt|Upgraded Prompt)` case-insensitively, skip `[:\s]*`, and
capture the rest of the string. -/
def findFinalPrompt : List Char → Option (List Char)
  | [] => none
  | c :: cs =>
      if startsWithCI "final prompt".data (c :: cs) then
        some (((c :: cs).drop 12).dropWhile (fun ch => ch = ':' || isJsWs ch))
      else if startsWithCI "upgraded prompt".data (c :: cs) then
        some (((c :: cs).drop 15).dropWhile (fun ch => ch = ':' || isJsWs ch))
      else findFinalPrompt cs

/-- `extractRefinedPrompt` of `route.ts`: falsy content gives `undefined`;
a code-block capture wins when non-empty (JS truthiness of the capture),
otherwise the final-prompt capture when non-empty, otherwise `undefined`;
captures are trimmed. -/
def extractRefinedPrompt (content : Option String) : Option String :=
  match content with
  | none => none
  | some c =>
      if c = "" then none
      else
        let fromFinal :=
          match findFinalPrompt c.data with
          | some capture =>
              if capture.isEmpty then none else some (jsTrim (String.mk capture))
          | none => none
        match findCodeBlock c.data with
        | some capture =>
            if capture.isEmpty then fromFinal else some (jsTrim (String.mk capture))
        | none => fromFinal

/-- The `POST` handler after a successfully parsed JSON body: the guard
chain of `route.ts` lines 42–63, then the provider call modelled by the
given outcome (lines 83–122). -/
def POST (payload : RefinePayload) (outcome : ProviderOutcome) : RefineResponse :=
  let provider := payload.provider.getD "openai"
  if promptFalsy payload.prompt then
    { status := 400, error := some "Prompt is required for refinement." }
  else if strFalsy payload.apiKey then
    { status := 400, error := some "API key is required to call the selected provider." }
  else if !endpointTruthy provider then
    { status := 400, error := some ("Unsupported provider: " ++ provider) }
  else
    match outcome with
    | .ok content =>
        { status := 200, analysis := content,
          refinedPrompt := extractRefinedPrompt content }
    | .httpError st msg =>
        { status := st,
          error := some (msg.getD
            "Provider returned a non-200 response. Check credentials and quota.") }
    | .networkFailure =>
        { status := 500,
          error := some "Failed to contact the provider. Verify network and credentials." }

/-- The full handler including the JSON-parse guard (lines 36–40). -/
def handleRefine (body : Option RefinePayload) (outcome : ProviderOutcome) :
    RefineResponse :=
  match body with
  | none => { status := 400, error := some "Invalid JSON payload." }
  | some payload => POST payload outcome

/-- The snapshot is entirely empty: all free-text fields blank, all tag sets
empty, only blank variables and workflow stages (spec §4.3 edge case). -/
def isEmptySnapshot (s : PromptState) : Bool :=
  blank s.projectTitle && blank s.coreObjective && blank s.targetAudience &&
  blank s.backgroundContext && blank s.requiredInputs && blank s.desiredOutput &&
  blank s.successCriteria && blank s.guardrails && blank s.creativeAngles &&
  blank s.referenceMaterial && blank s.evaluationStrategy &&
  blank s.modelPreferences && blank s.callToAction &&
  s.toneTraits.isEmpty && s.styleGuidelines.isEmpty &&
  s.constraints.isEmpty && s.keywords.isEmpty &&
  s.«variables».all (fun v => blank v.name && blank v.description) &&
  s.workflow.all stageEntirelyBlank

/-- The condition a reducer action's payload must itself satisfy for the
tag-set invariant to survive: `setChips` copies its list wholesale and
`hydrate` replaces the state wholesale, so those payloads must be
duplicate-free; every other action needs nothing. -/
def ActionPayloadNodup : PromptAction → Prop
  | .setChips _ value => value.Nodup
  | .hydrate payload => NodupState payload
  | _ => True

instance (a : PromptAction) : Decidable (ActionPayloadNodup a) := by
  cases a <;> simp only [ActionPayloadNodup] <;> infer_instance

/-! ## Supporting lemmas -/

theorem toNat_char_ofNat (n : Nat) (h : n.isValidChar) : (Char.ofNat n).toNat = n := by
  simp [Char.ofNat, dif_pos h, Char.ofNatAux, Char.toNat, UInt32.toNat]

theorem char_toUpper_idem (c : Char) : c.toUpper.toUpper = c.toUpper := by
  unfold Char.toUpper
  by_cases h : c.toNat ≥ 97 ∧ c.toNat ≤ 122
  · have hv : (c.toNat - 32).isValidChar := by left; omega
    rw [if_pos h, toNat_char_ofNat _ hv]
    rw [if_neg (by omega)]
  · rw [if_neg h, if_neg h]

theorem isJsWs_of_ge (d : Char) (h : 65 ≤ d.toNat) : isJsWs d = false := by
  unfold isJsWs
  have h1 : d ≠ ' ' := fun e => by subst e; exact absurd h (by decide)
  have h2 : d ≠ '\t' := fun e => by subst e; exact absurd h (by decide)
  have h3 : d ≠ '\n' := fun e => by subst e; exact absurd h (by decide)
  have h4 : d ≠ '\r' := fun e => by subst e; exact absurd h (by decide)
  have h5 : d ≠ '\x0b' := fun e => by subst e; exact absurd h (by decide)
  have h6 : d ≠ '\x0c' := fun e => by subst e; exact absurd h (by decide)
  simp [h1, h2, h3, h4, h5, h6]

theorem isJsWs_toUpper (c : Char) (h : isJsWs c = false) : isJsWs c.toUpper = false := by
  unfold Char.toUpper
  by_cases hc : c.toNat ≥ 97 ∧ c.toNat ≤ 122
  · rw [if_pos hc]
    apply isJsWs_of_ge
    rw [toNat_char_ofNat _ (by left; omega)]
    omega
  · rw [if_neg hc]; exact h

theorem collapseWsAux_no_ws (b : Bool) (l : List Char) :
    ∀ c ∈ collapseWsAux b l, isJsWs c = false := by
  induction l generalizing b with
  | nil => intro c hc; simp [collapseWsAux] at hc
  | cons d ds ih =>
      intro c hc
      unfold collapseWsAux at hc
      by_cases hd : isJsWs d
      · rw [if_pos hd] at hc
        cases b with
        | true =>
            rw [if_pos rfl] at hc
            exact ih true c hc
        | false =>
            rw [if_neg Bool.false_ne_true] at hc
            rcases List.mem_cons.mp hc with h | h
            · subst h; rfl
            · exact ih true c h
      · rw [if_neg hd] at hc
        rcases List.mem_cons.mp hc with h | h
        · subst h; simpa using hd
        · exact ih false c h

theorem collapseWsAux_id (b : Bool) (l : List Char)
    (h : ∀ c ∈ l, isJsWs c = false) : collapseWsAux b l = l := by
  induction l generalizing b with
  | nil => rfl
  | cons d ds ih =>
      unfold collapseWsAux
      rw [if_neg (by simpa using h d (List.mem_cons_self d ds))]
      rw [ih false (fun c hc => h c (List.mem_cons_of_mem d hc))]

/-- Normalizing a variable name is idempotent: the output has no whitespace
left to collapse and uppercasing is idempotent. -/
theorem normalizeVariableName_idem (s : String) :
    IsNormalizedName (normalizeVariableName s) := by
  unfold IsNormalizedName normalizeVariableName
  have hdata : (String.mk ((collapseWsAux false s.data).map Char.toUpper)).data
      = (collapseWsAux false s.data).map Char.toUpper := rfl
  rw [hdata]
  rw [collapseWsAux_id false _ (by
    intro c hc
    rcases List.mem_map.mp hc with ⟨d, hd, rfl⟩
    exact isJsWs_toUpper d (collapseWsAux_no_ws false s.data d hd))]
  rw [List.map_map]
  congr 1
  apply List.map_congr_left
  intro c _
  exact char_toUpper_idem c

theorem nodup_append_singleton {l : List String} {a : String}
    (h : l.Nodup) (ha : a ∉ l) : (l ++ [a]).Nodup := by
  induction l with
  | nil => simp
  | cons x xs ih =>
      rcases List.nodup_cons.mp h with ⟨hx, hxs⟩
      refine List.nodup_cons.mpr ⟨?_, ih hxs (fun hm => ha (List.mem_cons_of_mem x hm))⟩
      intro hmem
      rcases List.mem_append.mp hmem with hm | hm
      · exact hx hm
      · rcases List.mem_singleton.mp hm with rfl
        exact ha (List.mem_cons_self x xs)

/-! ## Claims -/

/-- C1: for every `PromptState` `s`, compiling twice yields byte-identical
strings and evaluating twice yields equal reports — both are pure functions
of the snapshot, with no timestamp, random id or locale dependence in the
model, so determinism is reflexivity. -/
theorem compile_evaluate_deterministic (s : PromptState) :
    compilePrompt s = compilePrompt s ∧ evaluate s = evaluate s :=
  ⟨rfl, rfl⟩

/-- C9: `addChip` is idempotent — adding a value already present in the
targeted tag set returns the input state unchanged (the reducer's
`existing.includes(action.value)` guard). -/
theorem addChip_idempotent (s : PromptState) (k : ArrayKey) (v : String)
    (h : v ∈ getArray s k) : reducer s (.addChip k v) = s := by
  simp only [reducer]
  rw [if_pos h]

theorem addChip_idempotent_witness :
    ("bold" ∈ getArray { createDefaultPromptState "v1" "w1" with
        toneTraits := ["bold"] } .toneTraits) ∧
    reducer { createDefaultPromptState "v1" "w1" with toneTraits := ["bold"] }
        (.addChip .toneTraits "bold")
      = { createDefaultPromptState "v1" "w1" with toneTraits := ["bold"] } :=
  ⟨by decide,
   addChip_idempotent { createDefaultPromptState "v1" "w1" with
     toneTraits := ["bold"] } .toneTraits "bold" (by decide)⟩

/-- C10: the reducer does not preserve non-emptiness of the variable and
workflow sequences — removing the only variable (or the only workflow
stage) by its id leaves an empty sequence; the at-least-one-row guarantee
holds only at creation. -/
theorem remove_last_entry (s : PromptState) :
    (∀ v, s.«variables» = [v] →
      (reducer s (.removeVariable v.id)).«variables» = []) ∧
    (∀ st, s.workflow = [st] →
      (reducer s (.removeWorkflow st.id)).workflow = []) := by
  constructor
  · intro v hv
    simp [reducer, hv]
  · intro st hst
    simp [reducer, hst]

theorem remove_last_entry_witness :
    (createDefaultPromptState "v1" "w1").«variables» = [createBlankVariable "v1"] ∧
    (reducer (createDefaultPromptState "v1" "w1")
        (.removeVariable (createBlankVariable "v1").id)).«variables» = [] ∧
    (createDefaultPromptState "v1" "w1").workflow = [createBlankWorkflowStage "w1"] ∧
    (reducer (createDefaultPromptState "v1" "w1")
        (.removeWorkflow (createBlankWorkflowStage "w1").id)).workflow = [] :=
  ⟨rfl,
   (remove_last_entry (createDefaultPromptState "v1" "w1")).1 _ rfl,
   rfl,
   (remove_last_entry (createDefaultPromptState "v1" "w1")).2 _ rfl⟩

/-- C5: the `update` action is a frame-preserving copy: every text field
other than the updated key, and the tag sets, variables and workflow, equal
those of the input state (copy-on-write is inherent in the model — the
input value is never modified). -/
theorem update_frame (s : PromptState) (k : TextKey) (v : String) :
    (∀ k2, k2 ≠ k → getText (reducer s (.update k v)) k2 = getText s k2) ∧
    (reducer s (.update k v)).toneTraits = s.toneTraits ∧
    (reducer s (.update k v)).styleGuidelines = s.styleGuidelines ∧
    (reducer s (.update k v)).constraints = s.constraints ∧
    (reducer s (.update k v)).keywords = s.keywords ∧
    (reducer s (.update k v)).«variables» = s.«variables» ∧
    (reducer s (.update k v)).workflow = s.workflow := by
  refine ⟨fun k2 h => ?_, ?_, ?_, ?_, ?_, ?_, ?_⟩
  · cases k <;> cases k2 <;> first | rfl | exact absurd rfl h
  all_goals cases k <;> rfl

theorem update_frame_witness :
    (TextKey.guardrails ≠ TextKey.coreObjective) ∧
    getText (reducer (createDefaultPromptState "v1" "w1")
        (.update .coreObjective "Summarize the memo")) .guardrails
      = getText (createDefaultPromptState "v1" "w1") .guardrails :=
  ⟨by decide,
   (update_frame (createDefaultPromptState "v1" "w1") .coreObjective
      "Summarize the memo").1 .guardrails (by decide)⟩

/-- C3: loading a template merges its partial over the defaults field-wise —
each field present in the partial wins, each absent one falls back to the
base; the six list-typed fields are replaced wholesale and the merge leaves
every variable and workflow-stage id untouched. -/
theorem mergeTemplate_field_wise (base : PromptState) (p : PartialPromptState) :
    (∀ k, getText (mergeTemplate base p) k = (getPartialText p k).getD (getText base k)) ∧
    (∀ k, getArray (mergeTemplate base p) k = (getPartialArray p k).getD (getArray base k)) ∧
    (mergeTemplate base p).«variables» = p.«variables».getD base.«variables» ∧
    (mergeTemplate base p).workflow = p.workflow.getD base.workflow ∧
    (mergeTemplate base p).«variables».map PromptVariable.id
      = (p.«variables».getD base.«variables»).map PromptVariable.id ∧
    (mergeTemplate base p).workflow.map WorkflowStage.id
      = (p.workflow.getD base.workflow).map WorkflowStage.id :=
  ⟨fun k => by cases k <;> rfl, fun k => by cases k <;> rfl, rfl, rfl, rfl, rfl⟩

/-- C2 (counterexample): starting from the duplicate-free default state, the
`setChips` action with the list `["concise", "concise"]` produces a state
whose `toneTraits` contains a duplicate — the reducer copies the provided
list wholesale without deduplication. -/
theorem setChips_breaks_nodup :
    NodupState (createDefaultPromptState "var-1" "stage-1") ∧
    ¬ NodupState (reducer (createDefaultPromptState "var-1" "stage-1")
        (.setChips .toneTraits ["concise", "concise"])) :=
  ⟨by decide, by decide⟩

/-- C2 (amended): every reducer action applied to a duplicate-free state
yields a duplicate-free state, provided the payloads of `setChips` (a
wholesale list) and `hydrate` (a wholesale state) are themselves
duplicate-free; all other actions need no proviso. -/
theorem reducer_preserves_nodup (s : PromptState) (a : PromptAction)
    (hs : NodupState s) (ha : ActionPayloadNodup a) :
    NodupState (reducer s a) := by
  obtain ⟨h1, h2, h3, h4⟩ := hs
  cases a with
  | update key value =>
      cases key <;> exact ⟨h1, h2, h3, h4⟩
  | addChip key value =>
      by_cases hmem : value ∈ getArray s key
      · simp only [reducer]
        rw [if_pos hmem]
        exact ⟨h1, h2, h3, h4⟩
      · simp only [reducer]
        rw [if_neg hmem]
        cases key with
        | toneTraits => exact ⟨nodup_append_singleton h1 hmem, h2, h3, h4⟩
        | styleGuidelines => exact ⟨h1, nodup_append_singleton h2 hmem, h3, h4⟩
        | constraints => exact ⟨h1, h2, nodup_append_singleton h3 hmem, h4⟩
        | keywords => exact ⟨h1, h2, h3, nodup_append_singleton h4 hmem⟩
  | removeChip key value =>
      cases key with
      | toneTraits => exact ⟨h1.filter _, h2, h3, h4⟩
      | styleGuidelines => exact ⟨h1, h2.filter _, h3, h4⟩
      | constraints => exact ⟨h1, h2, h3.filter _, h4⟩
      | keywords => exact ⟨h1, h2, h3, h4.filter _⟩
  | setChips key value =>
      cases key with
      | toneTraits => exact ⟨ha, h2, h3, h4⟩
      | styleGuidelines => exact ⟨h1, ha, h3, h4⟩
      | constraints => exact ⟨h1, h2, ha, h4⟩
      | keywords => exact ⟨h1, h2, h3, ha⟩
  | hydrate payload => exact ha
  | addVariable freshId => exact ⟨h1, h2, h3, h4⟩
  | removeVariable id => exact ⟨h1, h2, h3, h4⟩
  | updateVariable id field value => exact ⟨h1, h2, h3, h4⟩
  | addWorkflow freshId => exact ⟨h1, h2, h3, h4⟩
  | removeWorkflow id => exact ⟨h1, h2, h3, h4⟩
  | updateWorkflow id field value => exact ⟨h1, h2, h3, h4⟩

theorem reducer_preserves_nodup_witness :
    NodupState (createDefaultPromptState "v1" "w1") ∧
    ActionPayloadNodup (.setChips .toneTraits ["bold", "warm"]) ∧
    NodupState (reducer (createDefaultPromptState "v1" "w1")
        (.setChips .toneTraits ["bold", "warm"])) :=
  ⟨by decide, by decide,
   reducer_preserves_nodup (createDefaultPromptState "v1" "w1")
     (.setChips .toneTraits ["bold", "warm"]) (by decide) (by decide)⟩

/-- C4 (counterexample): the `updateVariable` reducer case stores the
dispatched value verbatim — dispatching the raw name `"a b"` stores a name
that is not in uppercase-with-underscores normal form (normalization
happens in the editor component, not in the state transition). -/
theorem updateVariable_raw_name :
    (reducer (createDefaultPromptState "v1" "w1")
        (.updateVariable "v1" .name "a b")).«variables»
      = [{ id := "v1", name := "a b", description := "", «example» := none }] ∧
    ¬ IsNormalizedName "a b" :=
  ⟨by decide, by decide⟩

/-- C4 (amended): name edits flowing through the variables editor are
normalized before dispatch (`value.replace(/\s+/g, "_").toUpperCase()`), so
after an `updateVariable` transition whose value carries that normalization
the targeted variable's stored name is in uppercase-with-underscores normal
form. -/
theorem updateVariable_normalized_name (s : PromptState) (id raw : String) :
    ∀ v ∈ (reducer s (.updateVariable id .name (normalizeVariableName raw))).«variables»,
      v.id = id → IsNormalizedName v.name := by
  intro v hv hid
  simp only [reducer] at hv
  rcases List.mem_map.mp hv with ⟨w, hw, hveq⟩
  by_cases h : w.id = id
  · rw [if_pos h] at hveq
    subst hveq
    exact normalizeVariableName_idem raw
  · rw [if_neg h] at hveq
    subst hveq
    exact absurd hid h

theorem updateVariable_normalized_name_witness :
    ({ id := "v1", name := normalizeVariableName "my name", description := "",
        «example» := none } : PromptVariable) ∈
      (reducer (createDefaultPromptState "v1" "w1")
        (.updateVariable "v1" .name (normalizeVariableName "my name"))).«variables» ∧
    IsNormalizedName (normalizeVariableName "my name") :=
  ⟨by decide,
   updateVariable_normalized_name (createDefaultPromptState "v1" "w1") "v1" "my name"
     { id := "v1", name := normalizeVariableName "my name", description := "",
       «example» := none } (by decide) rfl⟩

/-- C6 (counterexample): `"toString"` is not a supported provider, yet the
bracket lookup `PROVIDER_ENDPOINTS["toString"]` resolves through the
prototype chain to the truthy inherited `Object.prototype.toString`, so the
guard at route.ts line 61 passes and the handler proceeds to the provider
call; the fetch against the non-URL endpoint fails and the handler answers
500 "Failed to contact the provider", not the claimed 400. -/
theorem refine_route_proto_provider :
    providerSupported "toString" = false ∧
    endpointTruthy "toString" = true ∧
    POST { prompt := some "Draft a memo", apiKey := some "sk-test",
             provider := some "toString" } .networkFailure
      = { status := 500,
          error := some "Failed to contact the provider. Verify network and credentials." } ∧
    (POST { prompt := some "Draft a memo", apiKey := some "sk-test",
              provider := some "toString" } .networkFailure).status ≠ 400 :=
  ⟨by decide, by decide, by decide, by decide⟩

/-- C6 (amended): the refine `POST` handler answers with status 400, an
error and no analysis or refined prompt whenever the prompt is missing or
blank after trimming, the api key is absent (or empty — JS falsiness), or
the looked-up `PROVIDER_ENDPOINTS[provider]` is falsy, i.e. the provider is
neither an own key (`openai`/`openrouter`) nor an inherited
`Object.prototype` key; a prototype-chain provider passes the guard and the
inevitable failure of the fetch against its non-URL endpoint yields a 500
error instead; when the guards pass and the provider call succeeds the
handler answers 200 with the analysis content, the optionally extracted
refined prompt and no error. -/
theorem refine_route_contract (payload : RefinePayload) (outcome : ProviderOutcome) :
    ((promptFalsy payload.prompt || strFalsy payload.apiKey ||
        !endpointTruthy (payload.provider.getD "openai")) = true →
      (POST payload outcome).status = 400 ∧
      (POST payload outcome).error.isSome = true ∧
      (POST payload outcome).analysis = none ∧
      (POST payload outcome).refinedPrompt = none) ∧
    (promptFalsy payload.prompt = false →
      strFalsy payload.apiKey = false →
      (payload.provider.getD "openai") ∈ objectPrototypeKeys →
      POST payload .networkFailure =
        { status := 500,
          error := some "Failed to contact the provider. Verify network and credentials." }) ∧
    (∀ content,
      promptFalsy payload.prompt = false →
      strFalsy payload.apiKey = false →
      endpointTruthy (payload.provider.getD "openai") = true →
      outcome = .ok content →
      POST payload outcome =
        { status := 200, analysis := content,
          refinedPrompt := extractRefinedPrompt content, error := none }) := by
  refine ⟨?_, ?_, ?_⟩
  · intro h
    by_cases h1 : promptFalsy payload.prompt
    · simp [POST, h1]
    · by_cases h2 : strFalsy payload.apiKey
      · simp [POST, h1, h2]
      · have h3 : endpointTruthy (payload.provider.getD "openai") = false := by
          rcases (Bool.or_eq_true _ _).mp h with h' | h'
          · rcases (Bool.or_eq_true _ _).mp h' with h'' | h''
            · exact absurd h'' h1
            · exact absurd h'' h2
          · simpa using h'
        simp [POST, h1, h2, h3]
  · intro h1 h2 h3
    have he : endpointTruthy (payload.provider.getD "openai") = true := by
      unfold endpointTruthy
      simp [h3]
    simp [POST, h1, h2, he]
  · intro content h1 h2 h3 hoc
    subst hoc
    simp [POST, h1, h2, h3]

theorem refine_route_contract_witness :
    (promptFalsy (none : Option String) || strFalsy none || !endpointTruthy "openai") = true ∧
    (POST { prompt := none } .networkFailure).status = 400 ∧
    ("valueOf" ∈ objectPrototypeKeys) ∧
    POST { prompt := some "Draft a memo", apiKey := some "sk-test",
             provider := some "valueOf" } .networkFailure
      = { status := 500,
          error := some "Failed to contact the provider. Verify network and credentials." } ∧
    POST { prompt := some "Draft a memo", apiKey := some "sk-test",
             provider := some "openrouter" }
        (.ok (some "Analysis text")) =
      { status := 200, analysis := some "Analysis text",
        refinedPrompt := extractRefinedPrompt (some "Analysis text"), error := none } :=
  ⟨by decide,
   ((refine_route_contract { prompt := none } .networkFailure).1 (by decide)).1,
   by decide,
   (refine_route_contract
      { prompt := some "Draft a memo", apiKey := some "sk-test",
        provider := some "valueOf" } .networkFailure).2.1
     (by decide) (by decide) (by decide),
   (refine_route_contract
      { prompt := some "Draft a memo", apiKey := some "sk-test",
        provider := some "openrouter" } (.ok (some "Analysis text"))).2.2
     (some "Analysis text") (by decide) (by decide) (by decide) rfl⟩

/-- C7 (counterexample): a state whose three workflow stages are all
entirely blank has a blank second stage, yet the compiler emits zero
numbered workflow steps, not two — the claim needs the first and third
stages to be non-blank. -/
theorem workflow_numbering_all_blank :
    ({ createDefaultPromptState "v1" "w0" with
        workflow := [(⟨"w1", "", "", ""⟩ : WorkflowStage),
                     ⟨"w2", "", "", ""⟩, ⟨"w3", "", "", ""⟩] } :
        PromptState).workflow.length = 3 ∧
    stageEntirelyBlank ⟨"w2", "", "", ""⟩ = true ∧
    numberedSteps ({ createDefaultPromptState "v1" "w0" with
        workflow := [(⟨"w1", "", "", ""⟩ : WorkflowStage),
                     ⟨"w2", "", "", ""⟩, ⟨"w3", "", "", ""⟩] } :
        PromptState).workflow = [] :=
  ⟨by decide, by decide, by decide⟩

/-- C7 (amended): for a three-stage workflow whose second stage is entirely
blank and whose first and third stages each have a non-blank title or
instruction, the compiler emits exactly two numbered steps, numbered 1 and
2, for the first and third stages in array order — blank stages are skipped
and numbering is contiguous over the emitted entries only. -/
theorem workflow_numbering (s : PromptState) (a b c : WorkflowStage)
    (hw : s.workflow = [a, b, c])
    (hb : stageEntirelyBlank b = true)
    (ha : (!blank a.title || !blank a.instruction) = true)
    (hc : (!blank c.title || !blank c.instruction) = true) :
    numberedSteps s.workflow = [(1, a), (2, c)] := by
  have hna : stageEntirelyBlank a = false := by
    rcases (Bool.or_eq_true _ _).mp ha with h | h <;>
      rw [Bool.not_eq_true'] at h <;> simp [stageEntirelyBlank, h]
  have hnc : stageEntirelyBlank c = false := by
    rcases (Bool.or_eq_true _ _).mp hc with h | h <;>
      rw [Bool.not_eq_true'] at h <;> simp [stageEntirelyBlank, h]
  rw [hw]
  simp [numberedSteps, List.filter, hna, hb, hnc, List.enum, List.enumFrom]

theorem workflow_numbering_witness :
    ({ createDefaultPromptState "v1" "w0" with
        workflow := [(⟨"w1", "Research", "Find sources", ""⟩ : WorkflowStage),
                     ⟨"w2", "", "", ""⟩, ⟨"w3", "Write", "Draft the answer", ""⟩] } :
        PromptState).workflow
      = [(⟨"w1", "Research", "Find sources", ""⟩ : WorkflowStage),
         ⟨"w2", "", "", ""⟩, ⟨"w3", "Write", "Draft the answer", ""⟩] ∧
    numberedSteps ({ createDefaultPromptState "v1" "w0" with
        workflow := [(⟨"w1", "Research", "Find sources", ""⟩ : WorkflowStage),
                     ⟨"w2", "", "", ""⟩, ⟨"w3", "Write", "Draft the answer", ""⟩] } :
        PromptState).workflow
      = [(1, (⟨"w1", "Research", "Find sources", ""⟩ : WorkflowStage)),
         (2, ⟨"w3", "Write", "Draft the answer", ""⟩)] :=
  ⟨rfl,
   workflow_numbering _ _ _ _ rfl (by decide) (by decide) (by decide)⟩

/-- C8: evaluating an entirely empty snapshot (all free-text fields blank,
all tag sets empty, only blank variables and workflow stages) yields the
minimum total score 0, a missing-sections list naming every rubric
dimension in declaration order, and a non-empty impact-tips list. -/
theorem evaluate_empty_snapshot (s : PromptState) (h : isEmptySnapshot s = true) :
    (evaluate s).totalScore = 0 ∧
    (evaluate s).missingSections = dimensionOrder.map dimTitle ∧
    (evaluate s).impactTips ≠ [] := by
  simp only [isEmptySnapshot, Bool.and_eq_true] at h
  obtain ⟨⟨⟨⟨⟨⟨⟨⟨⟨⟨⟨⟨⟨⟨⟨⟨⟨⟨hb1, hb2⟩, hb3⟩, hb4⟩, hb5⟩, hb6⟩, hb7⟩, hb8⟩, hb9⟩,
    hb10⟩, hb11⟩, hb12⟩, hb13⟩, ht1⟩, ht2⟩, ht3⟩, ht4⟩, hv⟩, hw⟩ := h
  have ht1' : s.toneTraits = [] := List.isEmpty_iff.mp ht1
  have ht2' : s.styleGuidelines = [] := List.isEmpty_iff.mp ht2
  have ht3' : s.constraints = [] := List.isEmpty_iff.mp ht3
  have ht4' : s.keywords = [] := List.isEmpty_iff.mp ht4
  have hwfAny : s.workflow.any (fun st => !blank st.title || !blank st.instruction) = false := by
    rw [List.any_eq_false]
    intro st hst
    have hbl := List.all_eq_true.mp hw st hst
    simp only [stageEntirelyBlank, Bool.and_eq_true] at hbl
    obtain ⟨⟨hbt, hbi⟩, hbe⟩ := hbl
    simp [hbt, hbi]
  have hvAny : s.«variables».any (fun v => !blank v.name) = false := by
    rw [List.any_eq_false]
    intro v hvm
    have hbl := List.all_eq_true.mp hv v hvm
    simp only [Bool.and_eq_true] at hbl
    simp [hbl.1]
  have d1 : dimScore .clarity s = 0 := by simp [dimScore, lengthScore, hb2]
  have d2 : dimScore .audience s = 0 := by simp [dimScore, lengthScore, hb3]
  have d3 : dimScore .guardrailsCoverage s = 0 := by
    simp [dimScore, lengthScore, hb8, ht3']
  have d4 : dimScore .outputSpec s = 0 := by
    simp [dimScore, lengthScore, hb6, hb13]
  have d5 : dimScore .selfEval s = 0 := by
    simp [dimScore, lengthScore, hb11, hb7]
  have d6 : dimScore .structural s = 0 := by
    simp [dimScore, hwfAny, hvAny, ht1', ht2', ht3', ht4']
  refine ⟨?_, ?_, ?_⟩
  · simp [evaluate, dimensionOrder, d1, d2, d3, d4, d5, d6]
  · simp [evaluate, dimensionOrder, List.filter, d1, d2, d3, d4, d5, d6]
  · simp [evaluate, sortedByScore, dimensionOrder, insertByScore, List.filter,
      d1, d2, d3, d4, d5, d6, dimMax, dimTip]

theorem evaluate_empty_snapshot_witness :
    isEmptySnapshot (createDefaultPromptState "v1" "w1") = true ∧
    (evaluate (createDefaultPromptState "v1" "w1")).totalScore = 0 ∧
    (evaluate (createDefaultPromptState "v1" "w1")).missingSections
      = dimensionOrder.map dimTitle ∧
    (evaluate (createDefaultPromptState "v1" "w1")).impactTips ≠ [] :=
  ⟨by decide,
   (evaluate_empty_snapshot (createDefaultPromptState "v1" "w1") (by decide)).1,
   (evaluate_empty_snapshot (createDefaultPromptState "v1" "w1") (by decide)).2.1,
   (evaluate_empty_snapshot (createDefaultPromptState "v1" "w1") (by decide)).2.2⟩

end PromptMaker
